import Mathlib

/-
Verification of the shared-memory cooperation layer of the rdk-x5 smart
pet camera repository.

The development shallowly embeds the Python sources:
  * `src/capture/mock_camera_daemon.py`  (ring-buffer producer, byte level)
  * `src/capture/real_shared_memory.py`  (ring-buffer reader, detection
    channel, zero-copy channel)
  * `src/mock/shared_memory.py`          (mock frame/detection channel)
  * `src/mock/camera_switcher.py`        (day/night switch controller)
  * `src/detector/yolo_detector_daemon.py` (zero-copy consumer loop)

Machine integers are modelled as `Nat` (all values written by the sources
at the modelled call sites are non-negative and far below 2^32 / 2^64, so
no wrap occurs); byte arenas are `Nat → Nat` maps produced only by the
embedded writers; fallible reads return `Option`.
-/

namespace PetCam

/-! ## Constants (real_shared_memory.py lines 56-65) -/

def RING_BUFFER_SIZE : Nat := 30

def MAX_DETECTIONS : Nat := 10

/-- `MAX_FRAME_SIZE = 1920 * 1080 * 3 // 2` (real_shared_memory.py line 58). -/
def MAX_FRAME_SIZE : Nat := 1920 * 1080 * 3 / 2

def ZEROCOPY_MAX_PLANES : Nat := 2

/-- `sizeof(CFrame)` for the ctypes layout of real_shared_memory.py lines
93-109: 8 (frame_number) + 16 (timestamp) + 4*4 (camera_id,width,height,
format) + 8 (data_size) + 4+4+1+1+2 (brightness fields and reserved) +
MAX_FRAME_SIZE bytes of data, padded to the 8-byte struct alignment. -/
def sizeofCFrame : Nat := 60 + MAX_FRAME_SIZE + 4

/-! ## Little-endian byte views

`struct.pack`/ctypes store multi-byte fields little endian.  `leByte v j`
is byte `j` of the little-endian encoding of `v`; `leRead arena off n`
decodes the `n` bytes at `off` back into a number. -/

def leByte (v j : Nat) : Nat := v / 256 ^ j % 256

def leRead (arena : Nat → Nat) (off n : Nat) : Nat :=
  (List.range n).foldr (fun j acc => arena (off + j) + 256 * acc) 0

/-! ## The frame a producer hands to the daemon's write site

Fields of `CFrame` as assigned in mock_camera_daemon.py lines 90-102.  The
brightness fields are never assigned there, so they keep the ctypes
zero-initialisation; `data` holds the payload bytes, `memmove`d over a
zero-initialised array. -/

structure WFrame where
  frame_number : Nat
  tv_sec : Nat
  tv_nsec : Nat
  camera_id : Nat
  width : Nat
  height : Nat
  format : Nat
  data_size : Nat
  data : Nat → Nat

/-- Byte `j` of `bytes(c_frame)` for a `CFrame` built at
mock_camera_daemon.py lines 90-102 (ctypes field offsets of the `CFrame`
declaration in real_shared_memory.py lines 93-109). -/
def encCFrame (f : WFrame) (j : Nat) : Nat :=
  if j < 8 then leByte f.frame_number j
  else if j < 16 then leByte f.tv_sec (j - 8)
  else if j < 24 then leByte f.tv_nsec (j - 16)
  else if j < 28 then leByte f.camera_id (j - 24)
  else if j < 32 then leByte f.width (j - 28)
  else if j < 36 then leByte f.height (j - 32)
  else if j < 40 then leByte f.format (j - 36)
  else if j < 48 then leByte f.data_size (j - 40)
  else if j < 60 then 0
  else if j < 60 + MAX_FRAME_SIZE then
    (if j - 60 < f.data_size then f.data (j - 60) else 0)
  else 0

/-- One iteration of the producer write in mock_camera_daemon.py lines
104-114: the frame bytes are written at offset
`sizeof(c_uint32) * 2 + sizeof(CFrame) * (write_index % RING_BUFFER_SIZE)`
(note: this offset does NOT skip the 32-byte `new_frame_sem` field of
`CSharedFrameBuffer`), then the bumped `write_index` is packed into bytes
0-3. -/
def daemonWriteFrame (arena : Nat → Nat) (f : WFrame) (write_index : Nat) :
    Nat → Nat :=
  let off := 4 * 2 + sizeofCFrame * (write_index % RING_BUFFER_SIZE)
  let afterFrame : Nat → Nat := fun i =>
    if off ≤ i ∧ i < off + sizeofCFrame then encCFrame f (i - off) else arena i
  fun i => if i < 4 then leByte (write_index + 1) i else afterFrame i

/-- The frame value returned by `RealSharedMemory.get_latest_frame`
(real_shared_memory.py lines 507-528).  `data_size` is the raw field;
`dataLen` is the length of the returned `memoryview(c_frame.data)[:data_size]`
slice — a Python slice clamps to the length of the underlying buffer, so
`dataLen = min data_size MAX_FRAME_SIZE`.  `data j` is byte `j` of that
slice (meaningful for `j < dataLen`). -/
structure ReadFrame where
  frame_number : Nat
  camera_id : Nat
  width : Nat
  height : Nat
  format : Nat
  data_size : Nat
  dataLen : Nat
  data : Nat → Nat

/-- `RealSharedMemory.get_latest_frame` (real_shared_memory.py lines
469-528) over the mapped byte arena.  `last` is the reader's
`last_read_frame_number` cursor (initialised to `-1`, hence `Int`).
Reads `write_index` from bytes 0-3; returns `none` when it is zero;
otherwise reads the `CFrame` at offset
`sizeof(c_uint32) * 2 + 32 + sizeof(CFrame) * ((write_index - 1) % RING_BUFFER_SIZE)`
(this reader offset DOES skip the 32-byte `new_frame_sem`), returns `none`
when its `frame_number` equals the cursor, and otherwise the frame. -/
def getLatestFrame (arena : Nat → Nat) (last : Int) : Option ReadFrame :=
  let write_index := leRead arena 0 4
  if write_index = 0 then none
  else
    let latest_idx := (write_index - 1) % RING_BUFFER_SIZE
    let base := 4 * 2 + 32 + sizeofCFrame * latest_idx
    let fn := leRead arena base 8
    if (fn : Int) = last then none
    else
      let ds := leRead arena (base + 40) 8
      some
        { frame_number := fn
          camera_id := leRead arena (base + 24) 4
          width := leRead arena (base + 28) 4
          height := leRead arena (base + 32) 4
          format := leRead arena (base + 36) 4
          data_size := ds
          dataLen := min ds MAX_FRAME_SIZE
          data := fun j => arena (base + 60 + j) }

/-! ## Concrete inputs for the byte-level claims -/

/-- The payload bytes of the first frame the daemon writes in the scenario
below: byte `i` is `(i + 1) % 256`. -/
def payloadC1 : Nat → Nat := fun i => (i + 1) % 256

/-- The first `CFrame` built by mock_camera_daemon.py `main` with a
100-byte payload: `frame_number = 1`, `camera_id = 0`, 640x480, NV12. -/
def writtenC1 : WFrame :=
  { frame_number := 1, tv_sec := 0, tv_nsec := 0, camera_id := 0
    width := 640, height := 480, format := 1, data_size := 100
    data := payloadC1 }

/-- The shared-memory arena after the daemon's first write (`write_index`
0 → 1) into the freshly `ftruncate`d (zero-filled) segment. -/
def arenaC1 : Nat → Nat := daemonWriteFrame (fun _ => 0) writtenC1 0

/-- An arena whose slot 0 carries an implausible `data_size` of
`MAX_FRAME_SIZE + 1` (all other slot-0 fields zero) with `write_index = 1`:
bytes 0-3 encode the write index and bytes 80-87 (= slot-0 base 40 +
`data_size` offset 40) encode the oversized length. -/
def arenaOversized : Nat → Nat := fun i =>
  if i < 4 then leByte 1 i
  else if 80 ≤ i ∧ i < 88 then leByte (MAX_FRAME_SIZE + 1) (i - 80)
  else 0

/-! ## Micro-step trace of the ring-buffer producer (claim C2)

The producer protocol (mock_camera_daemon.py lines 104-114, and spec
§4.1) performs TWO separate shared-memory operations per loop iteration:
first the slot write of frame `k + 1` into slot `k % RING_BUFFER_SIZE`
(the daemon keeps `frame_number = write_index + 1`, both bumped together),
and only afterwards the publication of the bumped `write_index`.
`ringMicro m` is the shared state after `m` such micro-steps: even
micro-steps are slot writes, odd micro-steps index publications, so a
reader can observe a completed slot overwrite while `write_index` still
lags it.  Each slot records the `frame_number` it holds (0 for a
never-written slot, matching the zero-filled segment); slot contents are
given at the declared `CSharedFrameBuffer` layout — the C1 offset slip is
set aside here, since even a layout-correct producer exhibits the
interleaving proved below. -/

structure RingTrace where
  write_index : Nat
  slotFrame : Nat → Nat

def ringMicro : Nat → RingTrace
  | 0 => { write_index := 0, slotFrame := fun _ => 0 }
  | n + 1 =>
      let s := ringMicro n
      if n % 2 = 0 then
        { write_index := s.write_index
          slotFrame := fun j =>
            if j = (n / 2) % RING_BUFFER_SIZE then n / 2 + 1
            else s.slotFrame j }
      else
        { write_index := n / 2 + 1, slotFrame := s.slotFrame }

/-- `RealSharedMemory.get_latest_frame` restricted to its index/cursor
protocol (real_shared_memory.py lines 479-504), run against the micro
trace: the reader samples `write_index` after `m1` micro-steps and reads
the slot at `(write_index - 1) % RING_BUFFER_SIZE` after `m2 ≥ m1`
micro-steps.  It returns the accepted `frame_number`, or `none` when
`write_index` was zero or the slot's `frame_number` equals the reader
cursor `last` — the only check the source reader performs (line 501). -/
def readMicro (m1 m2 : Nat) (last : Int) : Option Nat :=
  if (ringMicro m1).write_index = 0 then none
  else if ((ringMicro m2).slotFrame
      (((ringMicro m1).write_index - 1) % RING_BUFFER_SIZE) : Int) = last
    then none
  else some ((ringMicro m2).slotFrame
      (((ringMicro m1).write_index - 1) % RING_BUFFER_SIZE))

/-! ## MockSharedMemory (src/mock/shared_memory.py) -/

/-- `common.types.Frame` (types.py lines 142-164): payload plus metadata.
`timestamp` is a float UNIX time, modelled as `ℚ`. -/
structure MFrame where
  data : List Nat
  frame_number : Nat
  timestamp : ℚ
  camera_id : Nat
  width : Nat
  height : Nat
deriving DecidableEq

/-- `common.types.Detection` (types.py lines 125-139). -/
structure MDetection where
  class_name : String
  confidence : ℚ
  x : Int
  y : Int
  w : Int
  h : Int
deriving DecidableEq

/-- `common.types.DetectionResult` (types.py lines 176-198). -/
structure MDetectionResult where
  frame_number : Nat
  timestamp : ℚ
  detections : List MDetection
  version : Nat
deriving DecidableEq

/-- The state of a `MockSharedMemory` object (shared_memory.py lines
37-52): a bounded frame deque (`maxlen = buffer_size`, newest last), the
frame counter, the single detection slot and its version counter. -/
structure MockShm where
  buffer_size : Nat
  frame_buffer : List MFrame
  frame_counter : Nat
  detection_result : Option MDetectionResult
  detection_version : Nat

/-- A fresh `MockSharedMemory(buffer_size)`; also the state after
`clear()` (shared_memory.py lines 175-183). -/
def MockShm.init (buffer_size : Nat) : MockShm :=
  { buffer_size := buffer_size, frame_buffer := [], frame_counter := 0
    detection_result := none, detection_version := 0 }

/-- `deque(maxlen = n).append`: append on the right, dropping from the
left once the length exceeds `n`. -/
def dequeAppend (n : Nat) (xs : List MFrame) (x : MFrame) : List MFrame :=
  let ys := xs ++ [x]
  if n < ys.length then ys.drop (ys.length - n) else ys

/-- `MockSharedMemory.write_frame` (shared_memory.py lines 56-71):
increments the counter, overwrites the caller's `frame_number` field with
it, appends the frame and returns the counter. -/
def MockShm.write_frame (st : MockShm) (frame : MFrame) : Nat × MockShm :=
  let c := st.frame_counter + 1
  let stamped := { frame with frame_number := c }
  (c, { st with frame_counter := c
                frame_buffer := dequeAppend st.buffer_size st.frame_buffer stamped })

/-- `MockSharedMemory.read_latest_frame` (shared_memory.py lines 73-92):
a copy of the newest frame, or `none` on an empty buffer. -/
def MockShm.read_latest_frame (st : MockShm) : Option MFrame :=
  st.frame_buffer.getLast?

/-- `MockSharedMemory.write_detection` (shared_memory.py lines 139-150):
bumps the version counter, stamps it into the record and stores it. -/
def MockShm.write_detection (st : MockShm) (res : MDetectionResult) : MockShm :=
  let v := st.detection_version + 1
  { st with detection_version := v
            detection_result := some { res with version := v } }

/-- Feeding a list of frames through `write_frame`, collecting the
returned frame numbers (left to right). -/
def MockShm.writeFrames (st : MockShm) (fs : List MFrame) : List Nat × MockShm :=
  match fs with
  | [] => ([], st)
  | f :: rest =>
      let (n, st1) := st.write_frame f
      let (ns, st2) := st1.writeFrames rest
      (n :: ns, st2)

/-! ## Real detection-result channel (real_shared_memory.py) -/

/-- The detection record written into `CLatestDetectionResult.detections`
(write_detection_result, lines 743-751). -/
structure DetRecord where
  class_name : String
  confidence : ℚ
  x : Int
  y : Int
  w : Int
  h : Int
deriving DecidableEq

/-- The shared `CLatestDetectionResult` slot (ctypes declaration, lines
121-129), restricted to the fields the embedded operations touch. -/
structure DetSlot where
  frame_number : Nat
  tv_sec : Nat
  tv_nsec : Nat
  num_detections : Nat
  detections : List DetRecord
  version : Nat
deriving DecidableEq

/-- The zero-initialised slot a freshly `ftruncate`d detection segment
holds. -/
def DetSlot.zero : DetSlot :=
  { frame_number := 0, tv_sec := 0, tv_nsec := 0, num_detections := 0
    detections := [], version := 0 }

/-- The per-object reader/writer cursor state of `RealSharedMemory`:
`last_detection_version` (line 393). -/
structure DetCursor where
  last_detection_version : Nat
deriving DecidableEq

/-- `RealSharedMemory._read_detection_struct` (lines 664-694) against an
available mapping.  The `update_version_only` parameter is accepted by the
source exactly as here: the body never consults it — `has_new_version`
is computed and, when true, `last_detection_version` is overwritten
unconditionally. -/
def readDetectionStruct (cur : DetCursor) (slot : DetSlot)
    (update_version_only : Bool) : (DetSlot × Bool) × DetCursor :=
  let _ := update_version_only
  let has_new_version := slot.version ≠ cur.last_detection_version
  let cur' := if has_new_version then
    { last_detection_version := slot.version } else cur
  ((slot, has_new_version), cur')

/-- `RealSharedMemory.get_detection_version` (lines 576-589) with the
detection mapping open: delegates to `_read_detection_struct(update_version_only=True)`
and returns the slot's version. -/
def getDetectionVersion (cur : DetCursor) (slot : DetSlot) : Nat × DetCursor :=
  let (r, cur') := readDetectionStruct cur slot true
  (r.1.version, cur')

/-- `RealSharedMemory.get_latest_detections` (lines 538-570): `none`
unless `_read_detection_struct` reported a new version; otherwise the
version together with the first `num_detections` records. -/
def getLatestDetections (cur : DetCursor) (slot : DetSlot) :
    Option (Nat × List DetRecord) × DetCursor :=
  let (r, cur') := readDetectionStruct cur slot false
  if r.2 then (some (r.1.version, r.1.detections.take r.1.num_detections), cur')
  else (none, cur')

/-- The writer-side state of `RealSharedMemory` after
`open_detection_write()`: the cursor doubles as the version source and the
mapped slot is writable. -/
structure DetWriter where
  last_detection_version : Nat
  slot : DetSlot
deriving DecidableEq

/-- `RealSharedMemory.write_detection_result` (lines 716-761): fills a
fresh zero-initialised `CLatestDetectionResult`, truncates the record list
to `MAX_DETECTIONS` (`num_detections = min(len(detections), MAX_DETECTIONS)`),
bumps `last_detection_version` and publishes it as the slot `version`. -/
def DetWriter.write (st : DetWriter) (frame_number : Nat)
    (tv_sec tv_nsec : Nat) (dets : List DetRecord) : DetWriter :=
  let v := st.last_detection_version + 1
  { last_detection_version := v
    slot :=
      { frame_number := frame_number
        tv_sec := tv_sec
        tv_nsec := tv_nsec
        num_detections := min dets.length MAX_DETECTIONS
        detections := dets.take MAX_DETECTIONS
        version := v } }

/-- Folding a list of write requests through `write_detection_result`,
collecting the published slot versions in order. -/
def DetWriter.writeSeq (st : DetWriter)
    (reqs : List (Nat × Nat × Nat × List DetRecord)) : List Nat × DetWriter :=
  match reqs with
  | [] => ([], st)
  | (fn, s, ns, ds) :: rest =>
      let st1 := st.write fn s ns ds
      let (vs, st2) := st1.writeSeq rest
      (st1.slot.version :: vs, st2)

/-! ## Zero-copy handoff channel (real_shared_memory.py lines 246-373,
yolo_detector_daemon.py lines 399-434) -/

/-- The `CZeroCopyFrame` descriptor fields the consumer-side validation
touches (lines 155-181): `plane_cnt` is a signed `c_int32`. -/
structure ZCDescriptor where
  frame_number : Nat
  version : Nat
  plane_cnt : Int
deriving DecidableEq

/-- Consumer-side channel state: the `last_version` cursor of
`ZeroCopySharedMemory` (line 258) plus the shared `consumed` flag and the
number of `sem_post` calls on `consumed_sem` (observable acknowledgement
count, lines 345-373). -/
structure ZCState where
  last_version : Nat
  consumed : Bool
  consumed_sem_posts : Nat
deriving DecidableEq

/-- `ZeroCopySharedMemory.get_frame` (lines 301-343): `none` when the
descriptor version equals `last_version`; otherwise the cursor is bumped
first, then `plane_cnt` is validated against the inclusive range
`0 .. ZEROCOPY_MAX_PLANES` BEFORE any per-plane array access — an
out-of-range count returns `none` (frame dropped).  No path here touches
the `consumed` flag or semaphore. -/
def zcGetFrame (st : ZCState) (desc : ZCDescriptor) :
    Option ZCDescriptor × ZCState :=
  if desc.version = st.last_version then (none, st)
  else
    let st' := { st with last_version := desc.version }
    if desc.plane_cnt < 0 ∨ desc.plane_cnt > (ZEROCOPY_MAX_PLANES : Int) then
      (none, st')
    else (some desc, st')

/-- `ZeroCopySharedMemory.mark_consumed` (lines 345-373): sets the shared
`consumed` byte and posts `consumed_sem`. -/
def zcMarkConsumed (st : ZCState) : ZCState :=
  { st with consumed := true, consumed_sem_posts := st.consumed_sem_posts + 1 }

/-- Outcome of one consumer-loop iteration for a descriptor. -/
structure ZCOutcome where
  processed : Bool
  acknowledged : Bool
deriving DecidableEq

/-- One iteration of `YoloDetectorDaemon.run` for the frame-taking part
(yolo_detector_daemon.py lines 411-434 and 519-521, with the decode/detect
work abstracted to "processed"): when `get_frame` yields nothing the loop
just sleeps (no acknowledgement); a frame whose `plane_cnt ≠ 2` raises,
and the handler acknowledges via `mark_consumed` and skips; a 2-plane
frame is processed and then acknowledged. -/
def daemonConsumeStep (st : ZCState) (desc : ZCDescriptor) :
    ZCOutcome × ZCState :=
  match zcGetFrame st desc with
  | (none, st') => ({ processed := false, acknowledged := false }, st')
  | (some f, st') =>
      if f.plane_cnt ≠ 2 then
        ({ processed := false, acknowledged := true }, zcMarkConsumed st')
      else
        ({ processed := true, acknowledged := true }, zcMarkConsumed st')

/-! ## Camera switch controller (src/mock/camera_switcher.py) -/

/-- Constructor parameters of `CameraSwitchController` (lines 54-78).
Thresholds and times are floats in the source, modelled in `ℚ`. -/
structure SwitchConfig where
  day_to_night_threshold : ℚ
  night_to_day_threshold : ℚ
  day_to_night_hold_seconds : ℚ
  night_to_day_hold_seconds : ℚ
  warmup_frames : Nat

/-- The default constructor arguments (lines 60-66). -/
def SwitchConfig.default : SwitchConfig :=
  { day_to_night_threshold := 40
    night_to_day_threshold := 70
    day_to_night_hold_seconds := 10
    night_to_day_hold_seconds := 10
    warmup_frames := 3 }

/-- The mutable decision state of the controller (lines 80-96), with a
ghost `switch_count` counting executed switches (the
`print`/`_switch_reason` side channel of `_switch_to`). -/
structure SwitchState where
  active_camera_id : Nat
  manual_override : Option Nat
  below_threshold_since : Option ℚ
  above_threshold_since : Option ℚ
  warmup_remaining : Nat
  switch_count : Nat
deriving DecidableEq

/-- The state right after construction with `initial_camera = DAY`. -/
def SwitchState.initial : SwitchState :=
  { active_camera_id := 0, manual_override := none
    below_threshold_since := none, above_threshold_since := none
    warmup_remaining := 0, switch_count := 0 }

/-- Python `x or now` on an `Optional[float]`: `None` and the float `0.0`
are both falsy, so a stored timestamp of exactly `0` restarts the timer. -/
def pyOrElse (x : Option ℚ) (now : ℚ) : ℚ :=
  match x with
  | none => now
  | some t => if t = 0 then now else t

/-- `CameraSwitchController._switch_to` (lines 241-256): no-op when the
target already is active; otherwise activates the target, sets
`warmup_remaining = warmup_frames` and (for `force_camera`) optionally
clears both hold timers. -/
def switchTo (cfg : SwitchConfig) (st : SwitchState) (camera_id : Nat)
    (reset_timers : Bool) : SwitchState :=
  if st.active_camera_id = camera_id then st
  else
    let st1 :=
      { st with active_camera_id := camera_id
                warmup_remaining := cfg.warmup_frames
                switch_count := st.switch_count + 1 }
    if reset_timers then
      { st1 with below_threshold_since := none, above_threshold_since := none }
    else st1

/-- `CameraSwitchController._evaluate_switch` (lines 212-239): skipped
entirely under manual override; in DAY the rolling day average below
`day_to_night_threshold` starts/keeps the below-timer (`or now` Python
truthiness) and, once `now - since >= hold`, calls `_switch_to` — while
STILL HOLDING `self._switch_lock` (acquired at line 214).  `_switch_lock`
is a non-reentrant `threading.Lock` (line 98) that `_switch_to`
re-acquires at line 243, so the calling thread blocks forever at that
point: the result `none` models the deadlocked thread (the timer update
has already been applied to the object, but `_active_camera_id` is never
changed and the thread never returns).  Any non-crossing sample clears
the timer.  Symmetrically for NIGHT, again driven by the DAY camera's
average. -/
def evaluateSwitchL (cfg : SwitchConfig) (st : SwitchState)
    (day_avg : Option ℚ) (now : ℚ) : Option SwitchState :=
  if st.manual_override ≠ none then some st
  else if st.active_camera_id = 0 then
    match day_avg with
    | none => some st
    | some avg =>
        if avg < cfg.day_to_night_threshold then
          let since := pyOrElse st.below_threshold_since now
          let st1 := { st with below_threshold_since := some since }
          if cfg.day_to_night_hold_seconds ≤ now - since then
            none
          else some st1
        else some { st with below_threshold_since := none }
  else
    match day_avg with
    | none => some st
    | some avg =>
        if cfg.night_to_day_threshold < avg then
          let since := pyOrElse st.above_threshold_since now
          let st1 := { st with above_threshold_since := some since }
          if cfg.night_to_day_hold_seconds ≤ now - since then
            none
          else some st1
        else some { st with above_threshold_since := none }

/-- A synthetic brightness feed: each element is the pair
`(day rolling average, time.time() at the sample)` handed to
`_evaluate_switch`.  A deadlocked thread (`none`) processes no further
samples, so `none` is absorbing. -/
def runFeedL (cfg : SwitchConfig) (ost : Option SwitchState)
    (feed : List (ℚ × ℚ)) : Option SwitchState :=
  feed.foldl (fun s p => s.bind fun st => evaluateSwitchL cfg st (some p.1) p.2)
    ost

/-- The warm-up gate of `CameraSwitchController._capture_loop` (lines
185-190), after brightness recording and switch evaluation: during the
warm-up window the counter is decremented and the frame is NOT written to
the ring buffer; otherwise `shm.write_frame(frame)` runs. -/
def capturePublish (st : SwitchState) (shm : MockShm) (frame : MFrame) :
    SwitchState × MockShm :=
  if 0 < st.warmup_remaining then
    ({ st with warmup_remaining := st.warmup_remaining - 1 }, shm)
  else (st, (shm.write_frame frame).2)

/-- The `CameraControlChannel` state (spec §3: `active_camera`, `version`).
Modelled from the spec: the channel itself (`CameraControlSharedMemory`)
is created by the C capture daemon, which is not part of the Python
sources; only its consumer (`yolo_detector_daemon.py` lines 24-31 and
124-134) appears there. -/
structure ControlChannel where
  active_camera : Nat
  version : Nat
deriving DecidableEq

/-- Modelled from the spec: `CameraControlChannel.write(camera_id)`
(§4.4-4.5) — overwrite `active_camera` with the same version-counter
discipline as the other channels.  The writing side lives in the C
daemon, absent from the Python sources. -/
def ControlChannel.write (c : ControlChannel) (camera_id : Nat) : ControlChannel :=
  { active_camera := camera_id, version := c.version + 1 }

/-- Modelled from the spec: the full switch step of §4.5 ("On every
switch: update `active_camera`, set warm-up-remaining = N frames, write
CameraControlChannel").  The in-process part is the source `_switch_to`;
the control-channel write is the spec-modelled `ControlChannel.write`,
issued exactly when the switch actually happens. -/
def switchToWithControl (cfg : SwitchConfig) (st : SwitchState)
    (ctrl : ControlChannel) (camera_id : Nat) : SwitchState × ControlChannel :=
  if st.active_camera_id = camera_id then (st, ctrl)
  else (switchTo cfg st camera_id false, ctrl.write camera_id)

/-! ## Concrete inputs used by witnesses and counterexamples -/

/-- A caller-built frame carrying the (to-be-overwritten) frame number 99. -/
def mfA : MFrame :=
  { data := [10, 20], frame_number := 99, timestamp := 0, camera_id := 0
    width := 1280, height := 720 }

/-- A second caller-built frame, again with a bogus frame number. -/
def mfB : MFrame :=
  { data := [30], frame_number := 77, timestamp := 1, camera_id := 0
    width := 1280, height := 720 }

/-- A shared detection slot published at version 5 (no records). -/
def slotV5 : DetSlot :=
  { frame_number := 7, tv_sec := 0, tv_nsec := 0, num_detections := 0
    detections := [], version := 5 }

/-- A freshly opened detection writer over a zeroed slot. -/
def detWriter0 : DetWriter :=
  { last_detection_version := 0, slot := DetSlot.zero }

/-- Two empty-detection write requests with distinct frame numbers. -/
def detReqsW : List (Nat × Nat × Nat × List DetRecord) :=
  [(1, 0, 0, []), (2, 0, 0, [])]

/-- A freshly opened zero-copy consumer state. -/
def zcState0 : ZCState :=
  { last_version := 0, consumed := false, consumed_sem_posts := 0 }

/-- A fresh descriptor with one plane (passes `get_frame` validation but
fails the daemon's NV12 check). -/
def descOnePlane : ZCDescriptor :=
  { frame_number := 1, version := 1, plane_cnt := 1 }

/-- A fresh well-formed NV12 descriptor (two planes). -/
def descTwoPlanes : ZCDescriptor :=
  { frame_number := 1, version := 1, plane_cnt := 2 }

/-- A fresh descriptor with three planes (rejected inside `get_frame`). -/
def descThreePlanes : ZCDescriptor :=
  { frame_number := 1, version := 1, plane_cnt := 3 }

/-! ## Helper lemmas about the mock frame channel -/

theorem range'_concat_eq (s n : Nat) :
    List.range' s n ++ [s + n] = List.range' s (n + 1) := by
  have h := @List.range'_concat 1 s n
  simpa using h.symm

theorem range'_drop_one (s n : Nat) :
    (List.range' s (n + 1)).drop 1 = List.range' (s + 1) n := by
  rw [List.range'_succ]
  rfl

theorem write_frame_inv (st : MockShm) (f : MFrame)
    (hsize : st.buffer_size = RING_BUFFER_SIZE)
    (hlen : st.frame_buffer.length = min st.frame_counter RING_BUFFER_SIZE)
    (hmap : st.frame_buffer.map (fun g => g.frame_number) =
      List.range' (st.frame_counter + 1 - st.frame_buffer.length)
        st.frame_buffer.length) :
    (st.write_frame f).2.buffer_size = RING_BUFFER_SIZE ∧
    (st.write_frame f).2.frame_counter = st.frame_counter + 1 ∧
    (st.write_frame f).2.frame_buffer.length =
      min (st.frame_counter + 1) RING_BUFFER_SIZE ∧
    (st.write_frame f).2.frame_buffer.map (fun g => g.frame_number) =
      List.range'
        (st.frame_counter + 2 - min (st.frame_counter + 1) RING_BUFFER_SIZE)
        (min (st.frame_counter + 1) RING_BUFFER_SIZE) := by
  have hm30 : st.frame_buffer.length ≤ RING_BUFFER_SIZE := by
    rw [hlen]; exact Nat.min_le_right _ _
  have hmc : st.frame_buffer.length ≤ st.frame_counter := by
    rw [hlen]; exact Nat.min_le_left _ _
  have hbuf : (st.write_frame f).2.frame_buffer =
      dequeAppend RING_BUFFER_SIZE st.frame_buffer
        { f with frame_number := st.frame_counter + 1 } := by
    rw [← hsize]; rfl
  have hstamped : List.map (fun g : MFrame => g.frame_number)
      [{ f with frame_number := st.frame_counter + 1 }] =
      [st.frame_counter + 1] := rfl
  have happ : List.map (fun g : MFrame => g.frame_number)
      (st.frame_buffer ++ [{ f with frame_number := st.frame_counter + 1 }]) =
      List.range' (st.frame_counter + 1 - st.frame_buffer.length)
        (st.frame_buffer.length + 1) := by
    rw [List.map_append, hmap, hstamped, ← range'_concat_eq]
    have h2 : st.frame_counter + 1 - st.frame_buffer.length +
        st.frame_buffer.length = st.frame_counter + 1 := by omega
    rw [h2]
  have hys : (st.frame_buffer ++
      [{ f with frame_number := st.frame_counter + 1 }]).length =
      st.frame_buffer.length + 1 := by simp
  refine ⟨hsize, rfl, ?_, ?_⟩
  · rw [hbuf]
    simp only [dequeAppend]
    rw [hys]
    by_cases hfull : RING_BUFFER_SIZE < st.frame_buffer.length + 1
    · rw [if_pos hfull, List.length_drop, hys]
      omega
    · rw [if_neg hfull, hys]
      omega
  · rw [hbuf]
    simp only [dequeAppend]
    rw [hys]
    by_cases hfull : RING_BUFFER_SIZE < st.frame_buffer.length + 1
    · have hm : st.frame_buffer.length = RING_BUFFER_SIZE := by omega
      have hmin : min (st.frame_counter + 1) RING_BUFFER_SIZE =
          RING_BUFFER_SIZE := by omega
      have hd : st.frame_buffer.length + 1 - RING_BUFFER_SIZE = 1 := by omega
      rw [if_pos hfull, hd, List.map_drop, happ, hm, hmin, range'_drop_one]
      congr 1
      omega
    · have hmin : min (st.frame_counter + 1) RING_BUFFER_SIZE =
          st.frame_buffer.length + 1 := by omega
      rw [if_neg hfull, happ, hmin]
      congr 1
      omega

theorem writeFrames_returns (fs : List MFrame) (st : MockShm) :
    (st.writeFrames fs).1 = List.range' (st.frame_counter + 1) fs.length := by
  induction fs generalizing st with
  | nil => rfl
  | cons f rest ih =>
      simp [MockShm.writeFrames, MockShm.write_frame, ih, List.range'_succ]

theorem writeFrames_inv (fs : List MFrame) (st : MockShm)
    (hsize : st.buffer_size = RING_BUFFER_SIZE)
    (hlen : st.frame_buffer.length = min st.frame_counter RING_BUFFER_SIZE)
    (hmap : st.frame_buffer.map (fun g => g.frame_number) =
      List.range' (st.frame_counter + 1 - st.frame_buffer.length)
        st.frame_buffer.length) :
    (st.writeFrames fs).2.frame_counter = st.frame_counter + fs.length ∧
    (st.writeFrames fs).2.frame_buffer.map (fun g => g.frame_number) =
      List.range'
        (st.frame_counter + fs.length + 1 -
          min (st.frame_counter + fs.length) RING_BUFFER_SIZE)
        (min (st.frame_counter + fs.length) RING_BUFFER_SIZE) := by
  induction fs generalizing st with
  | nil =>
      refine ⟨rfl, ?_⟩
      simp only [MockShm.writeFrames, List.length_nil, Nat.add_zero]
      rw [hmap, hlen]
  | cons f rest ih =>
      obtain ⟨h1, h2, h3, h4⟩ := write_frame_inv st f hsize hlen hmap
      have hrec := ih (st.write_frame f).2 h1 (by rw [h3, h2]) (by rw [h4, h3, h2])
      simp only [MockShm.writeFrames, List.length_cons]
      rw [hrec.1, hrec.2, h2]
      have harith : st.frame_counter + 1 + rest.length =
          st.frame_counter + (rest.length + 1) := by omega
      rw [harith]
      exact ⟨rfl, rfl⟩

/-! ## Helper lemma about the detection writer -/

theorem writeSeq_versions (reqs : List (Nat × Nat × Nat × List DetRecord))
    (st : DetWriter) :
    (st.writeSeq reqs).1 =
      List.range' (st.last_detection_version + 1) reqs.length := by
  induction reqs generalizing st with
  | nil => rfl
  | cons r rest ih =>
      obtain ⟨fn, s, ns, ds⟩ := r
      simp [DetWriter.writeSeq, DetWriter.write, ih, List.range'_succ]

theorem readDetectionStruct_changed (cur : DetCursor) (slot : DetSlot)
    (u : Bool) (h : slot.version ≠ cur.last_detection_version) :
    (readDetectionStruct cur slot u).1.2 = true ∧
    (readDetectionStruct cur slot u).2.last_detection_version =
      slot.version := by
  simp [readDetectionStruct, h]

/-! ## Claim theorems -/

/-- C1: the claim states the producer/reader round-trip returns the
written payload byte-identically before the slot is overwritten.  The
code violates it: the producer of mock_camera_daemon.py writes the slot at
byte offset `8 + sizeof(CFrame) * idx`, omitting the 32-byte
`new_frame_sem` field of the very `CSharedFrameBuffer` layout it imports
and `ftruncate`s to, while `get_latest_frame` reads at `8 + 32 +
sizeof(CFrame) * idx`.  Evaluating both at the daemon's first write
(frame_number 1, 640x480 NV12, payload byte `i` = `(i+1) % 256`,
data_size 100) the reader accepts a frame whose `frame_number` is
`480 + 2^32` (the writer's height and format bytes) and whose first data
byte is payload byte 32, not payload byte 0. -/
theorem frame_roundtrip_broken_at_first_write :
    (getLatestFrame arenaC1 (-1)).isSome = true ∧
    (getLatestFrame arenaC1 (-1)).map (fun fr => fr.frame_number) =
      some 4294967776 ∧
    writtenC1.frame_number = 1 ∧
    (getLatestFrame arenaC1 (-1)).map (fun fr => fr.data 0) = some 33 ∧
    writtenC1.data 0 = 1 ∧
    writtenC1.data_size = 100 := by
  refine ⟨by decide, by decide, rfl, by decide, by decide, rfl⟩

/-- C3 counterexample: a slot carrying `data_size = MAX_FRAME_SIZE + 1`
(with a fresh `frame_number`) is NOT discarded by `get_latest_frame` —
the read returns the frame, while the claim requires `None`. -/
theorem oversized_frame_still_returned :
    (getLatestFrame arenaOversized (-1)).isSome = true ∧
    (getLatestFrame arenaOversized (-1)).map (fun fr => fr.data_size) =
      some (MAX_FRAME_SIZE + 1) := by
  refine ⟨by decide, by decide⟩

/-- C3 (amended): `get_latest_frame` performs no `data_size` plausibility
check and never discards a slot for being oversized; however it also never
indexes the payload past `MAX_FRAME_SIZE`, because the Python slice
`memoryview(c_frame.data)[:data_size]` clamps to the fixed buffer length:
every returned frame's data length is `min data_size MAX_FRAME_SIZE`. -/
theorem returned_data_clamped_to_capacity (arena : Nat → Nat) (last : Int)
    (fr : ReadFrame) (h : getLatestFrame arena last = some fr) :
    fr.dataLen = min fr.data_size MAX_FRAME_SIZE ∧
    fr.dataLen ≤ MAX_FRAME_SIZE := by
  simp only [getLatestFrame] at h
  split at h
  · exact absurd h (by simp)
  · split at h
    · exact absurd h (by simp)
    · injection h with h'
      subst h'
      exact ⟨rfl, Nat.min_le_right _ _⟩

/-- Witness for the amended C3 theorem at the oversized-slot arena. -/
theorem returned_data_clamped_witness :
    match getLatestFrame arenaOversized (-1) with
    | none => False
    | some fr => fr.dataLen = min fr.data_size MAX_FRAME_SIZE ∧
        fr.dataLen ≤ MAX_FRAME_SIZE := by
  have hs : (getLatestFrame arenaOversized (-1)).isSome = true := by decide
  cases heval : getLatestFrame arenaOversized (-1) with
  | none => rw [heval] at hs; exact absurd hs (by simp)
  | some fr => exact returned_data_clamped_to_capacity arenaOversized (-1) fr heval

/-- C7: `get_latest_frame` returns `none` ("no data yet") when
`write_index` is zero; otherwise it reads the slot at
`(write_index - 1) % RING_BUFFER_SIZE` and returns `none` ("no new
frame", not an error) when that slot's `frame_number` equals the reader's
cursor, and the frame itself otherwise. -/
theorem get_latest_frame_cases (arena : Nat → Nat) (last : Int) :
    (leRead arena 0 4 = 0 → getLatestFrame arena last = none) ∧
    (leRead arena 0 4 ≠ 0 →
      ((leRead arena
          (4 * 2 + 32 + sizeofCFrame * ((leRead arena 0 4 - 1) % RING_BUFFER_SIZE))
          8 : Int) = last →
        getLatestFrame arena last = none) ∧
      ((leRead arena
          (4 * 2 + 32 + sizeofCFrame * ((leRead arena 0 4 - 1) % RING_BUFFER_SIZE))
          8 : Int) ≠ last →
        (getLatestFrame arena last).map (fun fr => fr.frame_number) =
          some (leRead arena
            (4 * 2 + 32 + sizeofCFrame * ((leRead arena 0 4 - 1) % RING_BUFFER_SIZE))
            8))) := by
  refine ⟨fun h0 => ?_, fun h0 => ⟨fun heq => ?_, fun hne => ?_⟩⟩
  · simp [getLatestFrame, h0]
  · simp [getLatestFrame, h0, heq]
  · simp [getLatestFrame, h0, hne]

/-- Witness for C7 at concrete arenas: the all-zero arena has
`write_index = 0` (no data yet), and the oversized-slot arena read with a
cursor equal to its slot `frame_number` (0) yields "no new frame". -/
theorem get_latest_frame_cases_witness :
    getLatestFrame (fun _ => 0) 5 = none ∧ getLatestFrame arenaOversized 0 = none :=
  ⟨(get_latest_frame_cases (fun _ => 0) 5).1 (by decide),
   ((get_latest_frame_cases arenaOversized 0).2 (by decide)).1 (by decide)⟩

/-- C2: the claim promises that accepted frame numbers never go backwards,
relying on a re-check that discards a read whose observed `frame_number`
does not match the expected one.  The code's reader performs no such
expected-value re-check — only the cursor inequality of
real_shared_memory.py line 501 — and the producer publishes `write_index`
in a separate operation after the slot write, so the code violates the
claimed monotonicity.  Concrete interleaving: the reader samples
`write_index = 1` (micro-time 2) and, while suspended, the producer
completes slot writes up to frame 31 (overwriting slot 0) but is itself
suspended before publishing `write_index = 31` (micro-time 61); the
reader accepts frame 31 from slot 0; its next call samples the
still-lagging `write_index = 30`, reads slot 29 and accepts frame 30 —
older than the frame 31 it most recently accepted. -/
theorem reader_accepts_backwards_frame :
    readMicro 2 61 (-1) = some 31 ∧
    readMicro 61 61 31 = some 30 ∧
    (30 : Nat) < 31 := by
  refine ⟨by decide, by decide, by decide⟩

/-- C10: from a fresh (or `clear()`ed) `MockSharedMemory`, the k-th
`write_frame` call returns k, the stored frames carry exactly the
channel's own consecutive counter values 1..k (the last
`min k RING_BUFFER_SIZE` of them surviving in the deque), and the
caller-supplied `frame_number` values never reach the buffer — the result
is independent of them. -/
theorem write_frame_stamps_channel_counter (fs : List MFrame) :
    ((MockShm.init RING_BUFFER_SIZE).writeFrames fs).1 =
      List.range' 1 fs.length ∧
    ((MockShm.init RING_BUFFER_SIZE).writeFrames fs).2.frame_counter =
      fs.length ∧
    ((MockShm.init RING_BUFFER_SIZE).writeFrames fs).2.frame_buffer.map
        (fun g => g.frame_number) =
      List.range' (fs.length + 1 - min fs.length RING_BUFFER_SIZE)
        (min fs.length RING_BUFFER_SIZE) := by
  have h := writeFrames_inv fs (MockShm.init RING_BUFFER_SIZE) rfl
    (by simp [MockShm.init]) (by simp [MockShm.init])
  refine ⟨?_, ?_, ?_⟩
  · have hr := writeFrames_returns fs (MockShm.init RING_BUFFER_SIZE)
    simpa [MockShm.init] using hr
  · simpa [MockShm.init] using h.1
  · simpa [MockShm.init] using h.2

/-- Witness for C10 at two concrete frames whose caller-set frame numbers
(99 and 77) do not survive: the calls return 1 and 2 and the buffer stores
frame numbers 1 and 2. -/
theorem write_frame_stamps_channel_counter_witness :
    ((MockShm.init RING_BUFFER_SIZE).writeFrames [mfA, mfB]).1 =
      List.range' 1 2 ∧
    ((MockShm.init RING_BUFFER_SIZE).writeFrames [mfA, mfB]).2.frame_counter
      = 2 ∧
    ((MockShm.init RING_BUFFER_SIZE).writeFrames [mfA, mfB]).2.frame_buffer.map
        (fun g => g.frame_number) =
      List.range' (2 + 1 - min 2 RING_BUFFER_SIZE) (min 2 RING_BUFFER_SIZE) :=
  write_frame_stamps_channel_counter [mfA, mfB]

/-- C4: every write to the detection-result channel publishes a version
strictly greater than the previous one.  (1) Folding any request list
through `write_detection_result` publishes the consecutive versions
`last+1, last+2, ...`, a strictly increasing (pairwise `<`) sequence —
zero-record writes included.  (2) The mock channel's `write_detection`
equally bumps its counter on every write and stamps it into the stored
result.  (3) Two consecutive writes with no detections and different
`frame_number`s give a version-comparing reader two distinct
`changed = true` observations. -/
theorem detection_version_strictly_increasing (st : DetWriter)
    (reqs : List (Nat × Nat × Nat × List DetRecord)) (mock : MockShm)
    (res : MDetectionResult) (r0 fn1 fn2 : Nat)
    (h0 : r0 ≤ st.last_detection_version) :
    (st.writeSeq reqs).1 =
      List.range' (st.last_detection_version + 1) reqs.length ∧
    (st.writeSeq reqs).1.Pairwise (· < ·) ∧
    (mock.write_detection res).detection_version =
      mock.detection_version + 1 ∧
    (mock.write_detection res).detection_result =
      some { res with version := mock.detection_version + 1 } ∧
    (st.write fn1 0 0 []).slot.num_detections = 0 ∧
    (readDetectionStruct { last_detection_version := r0 }
        (st.write fn1 0 0 []).slot false).1.2 = true ∧
    (readDetectionStruct
        (readDetectionStruct { last_detection_version := r0 }
          (st.write fn1 0 0 []).slot false).2
        ((st.write fn1 0 0 []).write fn2 0 0 []).slot false).1.2 = true := by
  have hA := readDetectionStruct_changed { last_detection_version := r0 }
    (st.write fn1 0 0 []).slot false
    (by simp only [DetWriter.write]; omega)
  refine ⟨writeSeq_versions reqs st, ?_, rfl, rfl, rfl, hA.1, ?_⟩
  · rw [writeSeq_versions reqs st]
    exact List.pairwise_lt_range' _ _ 1 (by omega)
  · refine (readDetectionStruct_changed _ _ false ?_).1
    rw [hA.2]
    simp only [DetWriter.write]
    omega

/-- Witness for C4 with a fresh writer, two empty requests and an
up-to-date reader cursor. -/
theorem detection_version_strictly_increasing_witness :
    (detWriter0.writeSeq detReqsW).1 = List.range' 1 2 ∧
    (detWriter0.writeSeq detReqsW).1.Pairwise (· < ·) ∧
    (readDetectionStruct { last_detection_version := 0 }
        (detWriter0.write 1 0 0 []).slot false).1.2 = true :=
  have h := detection_version_strictly_increasing detWriter0 detReqsW
    (MockShm.init RING_BUFFER_SIZE)
    { frame_number := 1, timestamp := 0, detections := [], version := 0 }
    0 1 2 (Nat.le_refl 0)
  ⟨h.1, h.2.1, h.2.2.2.2.2.1⟩

/-- C6: the claim says `get_detection_version` leaves the caller's
`last_detection_version` cursor unchanged so that a later full read still
reports the unread detection as changed.  The code contradicts its own
interface: `_read_detection_struct` accepts `update_version_only` exactly
for this purpose (its docstring: don't track version change for callers
that only want the version number) but never consults it — the cursor is
overwritten unconditionally.  At a published version 5 and cursor 0, a
health-check `get_detection_version` returns 5 AND silently advances the
cursor to 5, after which `get_latest_detections` reports no change and
the detection is lost; without the preceding version probe the same read
returns it. -/
theorem get_detection_version_mutates_cursor :
    (getDetectionVersion { last_detection_version := 0 } slotV5).1 = 5 ∧
    (getDetectionVersion { last_detection_version := 0 }
      slotV5).2.last_detection_version = 5 ∧
    (getLatestDetections
      (getDetectionVersion { last_detection_version := 0 } slotV5).2
      slotV5).1 = none ∧
    (getLatestDetections { last_detection_version := 0 } slotV5).1 =
      some (5, []) := by
  refine ⟨rfl, rfl, by decide, by decide⟩

/-- C5 counterexample: a fresh descriptor with `plane_cnt = 3` (an
unexpected count for NV12) is dropped inside `get_frame` — the consumer
loop never sees it, so the frame is skipped WITHOUT being acknowledged:
`consumed` stays false and `consumed_sem` is never posted, although the
reader's version cursor has already consumed the publication. -/
theorem plane_cnt_three_dropped_without_ack :
    descThreePlanes.plane_cnt ≠ 2 ∧
    (daemonConsumeStep zcState0 descThreePlanes).1.processed = false ∧
    (daemonConsumeStep zcState0 descThreePlanes).1.acknowledged = false ∧
    (daemonConsumeStep zcState0 descThreePlanes).2.consumed = false ∧
    (daemonConsumeStep zcState0 descThreePlanes).2.consumed_sem_posts = 0 ∧
    (daemonConsumeStep zcState0 descThreePlanes).2.last_version = 1 := by
  refine ⟨by decide, by decide, by decide, by decide, by decide, by decide⟩

/-- C5 (amended): `plane_cnt` is validated before any per-plane access,
and a descriptor with an unexpected count is never processed and never
crashes; but only counts inside `get_frame`'s accepted range `0..2`
(i.e. 0 or 1 plane) reach the daemon's `!= 2` check and are skipped AND
acknowledged (`consumed` set, `consumed_sem` posted).  A count outside
`0..2` is dropped by `get_frame` itself and the frame is skipped WITHOUT
acknowledgement.  A 2-plane descriptor is processed and acknowledged. -/
theorem plane_cnt_validation (st : ZCState) (desc : ZCDescriptor)
    (hnew : desc.version ≠ st.last_version) :
    ((0 ≤ desc.plane_cnt ∧ desc.plane_cnt ≤ 2 ∧ desc.plane_cnt ≠ 2) →
      (daemonConsumeStep st desc).1.processed = false ∧
      (daemonConsumeStep st desc).1.acknowledged = true ∧
      (daemonConsumeStep st desc).2.consumed = true ∧
      (daemonConsumeStep st desc).2.consumed_sem_posts =
        st.consumed_sem_posts + 1) ∧
    (desc.plane_cnt = 2 →
      (daemonConsumeStep st desc).1.processed = true ∧
      (daemonConsumeStep st desc).1.acknowledged = true ∧
      (daemonConsumeStep st desc).2.consumed_sem_posts =
        st.consumed_sem_posts + 1) ∧
    ((desc.plane_cnt < 0 ∨ 2 < desc.plane_cnt) →
      (daemonConsumeStep st desc).1.processed = false ∧
      (daemonConsumeStep st desc).1.acknowledged = false ∧
      (daemonConsumeStep st desc).2.consumed = st.consumed ∧
      (daemonConsumeStep st desc).2.consumed_sem_posts =
        st.consumed_sem_posts) := by
  refine ⟨fun h => ?_, fun h => ?_, fun h => ?_⟩
  · have hr : ¬ (desc.plane_cnt < 0 ∨ desc.plane_cnt > 2) := by omega
    simp [daemonConsumeStep, zcGetFrame, zcMarkConsumed, ZEROCOPY_MAX_PLANES,
      hnew, hr, h.2.2]
  · have hr : ¬ (desc.plane_cnt < 0 ∨ desc.plane_cnt > 2) := by omega
    simp [daemonConsumeStep, zcGetFrame, zcMarkConsumed, ZEROCOPY_MAX_PLANES,
      hnew, hr, h]
  · have hr : desc.plane_cnt < 0 ∨ desc.plane_cnt > 2 := by omega
    simp [daemonConsumeStep, zcGetFrame, ZEROCOPY_MAX_PLANES, hnew, hr]

/-- Witness for the amended C5 theorem: a 1-plane descriptor is skipped
and acknowledged, a 2-plane descriptor is processed, a 3-plane descriptor
is dropped unacknowledged. -/
theorem plane_cnt_validation_witness :
    (daemonConsumeStep zcState0 descOnePlane).1.acknowledged = true ∧
    (daemonConsumeStep zcState0 descTwoPlanes).1.processed = true ∧
    (daemonConsumeStep zcState0 descThreePlanes).1.acknowledged = false :=
  ⟨((plane_cnt_validation zcState0 descOnePlane (by decide)).1
      (by decide)).2.1,
   ((plane_cnt_validation zcState0 descTwoPlanes (by decide)).2.1
      (by decide)).1,
   ((plane_cnt_validation zcState0 descThreePlanes (by decide)).2.2
      (by decide)).2.1⟩

/-- C8: the claim says a feed whose day rolling average stays below
`day_to_night_threshold` for `hold_seconds + ε` makes the controller
switch exactly once.  The code never completes that switch:
`_evaluate_switch` holds the non-reentrant `threading.Lock`
`_switch_lock` (camera_switcher.py lines 98 and 214) when it calls
`_switch_to` (line 228), and `_switch_to` re-acquires the same lock
(line 243), so the capture thread deadlocks the first time the hold
elapses.  With the default configuration and averages 30 at times 100 s
and 111 s (below the threshold 40 continuously for the 10 s hold plus
1 s): after the first sample the state still has `active_camera = DAY`
and zero switches with the below-timer armed at 100; the second sample
deadlocks inside `_switch_to` (result `none`) — the switch to NIGHT
never happens and no further sample is ever processed.  The claim's
second half does hold: a dip of 30 at 100 s and 105 s followed by a
bright sample 80 at 106 s completes without ever calling `_switch_to`,
resets the timer and returns the state exactly to the initial one. -/
theorem auto_switch_deadlocks_in_switch_to :
    runFeedL SwitchConfig.default (some SwitchState.initial) [(30, 100)] =
      some { SwitchState.initial with below_threshold_since := some 100 } ∧
    runFeedL SwitchConfig.default (some SwitchState.initial)
      [(30, 100), (30, 111)] = none ∧
    evaluateSwitchL SwitchConfig.default
      { SwitchState.initial with below_threshold_since := some 100 }
      (some 30) 111 = none ∧
    runFeedL SwitchConfig.default (some SwitchState.initial)
      [(30, 100), (30, 105), (80, 106)] = some SwitchState.initial := by
  refine ⟨?_, ?_, ?_, ?_⟩ <;>
    norm_num [runFeedL, evaluateSwitchL, pyOrElse, SwitchConfig.default,
      SwitchState.initial]

/-- C9: on every actual camera switch the controller updates
`active_camera`, sets the warm-up countdown to the configured
`warmup_frames`, bumps the switch count, and (spec-modelled
CameraControlChannel write, absent from the Python sources) publishes the
new camera id to the control channel; while the warm-up countdown is
positive the capture loop decrements it and suppresses the ring-buffer
write, and once it reaches zero frames are written again. -/
theorem switch_updates_control_and_warmup (cfg : SwitchConfig)
    (st : SwitchState) (ctrl : ControlChannel) (target : Nat)
    (h : st.active_camera_id ≠ target) :
    (switchToWithControl cfg st ctrl target).1.active_camera_id = target ∧
    (switchToWithControl cfg st ctrl target).1.warmup_remaining =
      cfg.warmup_frames ∧
    (switchToWithControl cfg st ctrl target).1.switch_count =
      st.switch_count + 1 ∧
    (switchToWithControl cfg st ctrl target).2.active_camera = target ∧
    (∀ (stw : SwitchState) (shm : MockShm) (frame : MFrame),
      0 < stw.warmup_remaining →
      (capturePublish stw shm frame).2 = shm ∧
      (capturePublish stw shm frame).1.warmup_remaining =
        stw.warmup_remaining - 1) ∧
    (∀ (stw : SwitchState) (shm : MockShm) (frame : MFrame),
      stw.warmup_remaining = 0 →
      (capturePublish stw shm frame).2 = (shm.write_frame frame).2) := by
  refine ⟨?_, ?_, ?_, ?_, fun stw shm frame hw => ?_, fun stw shm frame hw => ?_⟩
  · simp [switchToWithControl, switchTo, h]
  · simp [switchToWithControl, switchTo, h]
  · simp [switchToWithControl, switchTo, h]
  · simp [switchToWithControl, ControlChannel.write, h]
  · constructor <;> simp [capturePublish, hw]
  · simp [capturePublish, hw]

/-- Witness for C9: switching from DAY (0) to NIGHT (1) with the default
configuration and a fresh control channel. -/
theorem switch_updates_control_and_warmup_witness :
    (switchToWithControl SwitchConfig.default SwitchState.initial
      { active_camera := 0, version := 0 } 1).1.active_camera_id = 1 ∧
    (switchToWithControl SwitchConfig.default SwitchState.initial
      { active_camera := 0, version := 0 } 1).1.warmup_remaining =
      SwitchConfig.default.warmup_frames ∧
    (switchToWithControl SwitchConfig.default SwitchState.initial
      { active_camera := 0, version := 0 } 1).2.active_camera = 1 :=
  have h := switch_updates_control_and_warmup SwitchConfig.default
    SwitchState.initial { active_camera := 0, version := 0 } 1 (by decide)
  ⟨h.1, h.2.1, h.2.2.2.1⟩

end PetCam
